import Mathlib

/-!
Verification of the embdebug-target-core-v debug transport stack.

This file gives a shallow embedding, in Lean 4, of the layers of the
CORE-V MCU debug-server target: the Verilator simulation facade (VSim),
the IEEE 1149.1 JTAG TAP controller (Tap), the JTAG Debug Transport
Module (DtmJtag), the Debug Module Interface register model (Dmi), and
the debugger-facing adapter (Cv32e40).  Pure functions of the C++
sources become Lean functions; stateful methods become explicit state
passing; machine integers become Nat with explicit masking where the
source masks.  Theorems at the end settle the specified properties.
-/

namespace CoreV

/-! ## The JTAG TAP state machine (Tap.h / Tap.cpp)

The sixteen states of the IEEE 1149.1 TAP controller, in the order of
the source enumeration (TEST_LOGIC_RESET = 0 .. UPDATE_IR = 0xf). -/

inductive TapState : Type
  | TEST_LOGIC_RESET
  | RUN_TEST_IDLE
  | SELECT_DR_SCAN
  | CAPTURE_DR
  | SHIFT_DR
  | EXIT1_DR
  | PAUSE_DR
  | EXIT2_DR
  | UPDATE_DR
  | SELECT_IR_SCAN
  | CAPTURE_IR
  | SHIFT_IR
  | EXIT1_IR
  | PAUSE_IR
  | EXIT2_IR
  | UPDATE_IR
  deriving DecidableEq, Repr, Fintype

open TapState

/-- Numeric value of a TAP state, as in the source enumeration. -/
def TapState.idx : TapState → Nat
  | TEST_LOGIC_RESET => 0x0
  | RUN_TEST_IDLE => 0x1
  | SELECT_DR_SCAN => 0x2
  | CAPTURE_DR => 0x3
  | SHIFT_DR => 0x4
  | EXIT1_DR => 0x5
  | PAUSE_DR => 0x6
  | EXIT2_DR => 0x7
  | UPDATE_DR => 0x8
  | SELECT_IR_SCAN => 0x9
  | CAPTURE_IR => 0xa
  | SHIFT_IR => 0xb
  | EXIT1_IR => 0xc
  | PAUSE_IR => 0xd
  | EXIT2_IR => 0xe
  | UPDATE_IR => 0xf

/-- Length of the JTAG TAP instruction register (Tap.h, IR_LEN). -/
def IR_LEN : Nat := 5

/-- The transition table of Tap::nextState: for each current state, the
next state on TMS = 0 (first) and TMS = 1 (second).  Row order follows
the source array exactly. -/
def tapTrans : TapState → Bool → TapState
  | TEST_LOGIC_RESET, false => RUN_TEST_IDLE
  | TEST_LOGIC_RESET, true => TEST_LOGIC_RESET
  | RUN_TEST_IDLE, false => RUN_TEST_IDLE
  | RUN_TEST_IDLE, true => SELECT_DR_SCAN
  | SELECT_DR_SCAN, false => CAPTURE_DR
  | SELECT_DR_SCAN, true => SELECT_IR_SCAN
  | CAPTURE_DR, false => SHIFT_DR
  | CAPTURE_DR, true => EXIT1_DR
  | SHIFT_DR, false => SHIFT_DR
  | SHIFT_DR, true => EXIT1_DR
  | EXIT1_DR, false => PAUSE_DR
  | EXIT1_DR, true => UPDATE_DR
  | PAUSE_DR, false => PAUSE_DR
  | PAUSE_DR, true => EXIT2_DR
  | EXIT2_DR, false => SHIFT_DR
  | EXIT2_DR, true => UPDATE_DR
  | UPDATE_DR, false => RUN_TEST_IDLE
  | UPDATE_DR, true => SELECT_DR_SCAN
  | SELECT_IR_SCAN, false => CAPTURE_IR
  | SELECT_IR_SCAN, true => TEST_LOGIC_RESET
  | CAPTURE_IR, false => SHIFT_IR
  | CAPTURE_IR, true => EXIT1_IR
  | SHIFT_IR, false => SHIFT_IR
  | SHIFT_IR, true => EXIT1_IR
  | EXIT1_IR, false => PAUSE_IR
  | EXIT1_IR, true => UPDATE_IR
  | PAUSE_IR, false => PAUSE_IR
  | PAUSE_IR, true => EXIT2_IR
  | EXIT2_IR, false => SHIFT_IR
  | EXIT2_IR, true => UPDATE_IR
  | UPDATE_IR, false => RUN_TEST_IDLE
  | UPDATE_IR, true => SELECT_DR_SCAN

/-- The Tap::gotoState lookup table nextStateTab: entry [cur][tgt] is
the TMS value (0 or 1) to drive for the first step from state cur
towards state tgt.  Rows are transcribed from the source verbatim. -/
def nextStateTab : List (List Nat) :=
  [ [1, 0, 0, 0, 0, 0, 0, 0, 0, 0, 0, 0, 0, 0, 0, 0],
    [1, 0, 1, 1, 1, 1, 1, 1, 1, 1, 1, 1, 1, 1, 1, 1],
    [1, 1, 1, 0, 0, 0, 0, 0, 0, 1, 1, 1, 1, 1, 1, 1],
    [1, 1, 1, 1, 0, 1, 1, 1, 1, 1, 1, 1, 1, 1, 1, 1],
    [1, 1, 1, 1, 0, 1, 1, 1, 1, 1, 1, 1, 1, 1, 1, 1],
    [1, 1, 1, 1, 1, 1, 0, 0, 1, 1, 1, 1, 1, 1, 1, 1],
    [1, 1, 1, 1, 1, 1, 0, 1, 1, 1, 1, 1, 1, 1, 1, 1],
    [1, 1, 1, 1, 0, 0, 0, 0, 1, 1, 1, 1, 1, 1, 1, 1],
    [1, 0, 1, 1, 1, 1, 1, 1, 1, 1, 1, 1, 1, 1, 1, 1],
    [1, 1, 1, 1, 1, 1, 1, 1, 1, 1, 0, 0, 0, 0, 0, 0],
    [1, 1, 1, 1, 1, 1, 1, 1, 1, 1, 1, 0, 1, 1, 1, 1],
    [1, 1, 1, 1, 1, 1, 1, 1, 1, 1, 1, 0, 1, 1, 1, 1],
    [1, 1, 1, 1, 1, 1, 1, 1, 1, 1, 1, 1, 1, 0, 0, 1],
    [1, 1, 1, 1, 1, 1, 1, 1, 1, 1, 1, 0, 1, 1, 1, 1],
    [1, 1, 1, 1, 1, 1, 1, 1, 1, 1, 1, 0, 0, 0, 0, 1],
    [1, 0, 1, 1, 1, 1, 1, 1, 1, 1, 1, 1, 1, 1, 1, 1] ]

/-- TMS value Tap::gotoState drives for one step from cur towards tgt. -/
def tmsFor (cur tgt : TapState) : Bool :=
  ((nextStateTab.getD cur.idx []).getD tgt.idx 0) == 1

/-- State evolution of Tap::gotoState, instrumented with the number of
advanceState calls (each call is one TCK cycle).  The source loops
while the current state differs from the target; the fuel argument
makes the recursion structural, and sixteen steps always suffice
(gotoStateAux_reaches below). -/
def gotoStateAux : Nat → TapState → TapState → TapState × Nat
  | 0, cur, _ => (cur, 0)
  | fuel + 1, cur, tgt =>
      if cur = tgt then (cur, 0)
      else
        let next := tapTrans cur (tmsFor cur tgt)
        let r := gotoStateAux fuel next tgt
        (r.1, r.2 + 1)

/-- Tap::gotoState.  The source loop runs until the current state
equals the target; the driving policy of nextStateTab reaches every
target within sixteen steps from every start, except for the single
pair (Pause-IR, Shift-IR), where row 13 of the source table drives
TMS = 0 and Pause-IR self-loops, so the C++ loop never terminates.
The Option models that: some = the loop terminates with the reached
state and the number of advanceState calls (TCK cycles) consumed,
none = the C++ loop hangs. -/
def gotoState (cur tgt : TapState) : Option (TapState × Nat) :=
  let r := gotoStateAux 16 cur tgt
  if r.1 = tgt then some r else none

/-- The full Tap state as far as the state machine is concerned:
current TAP state, the last instruction register scanned (initially 0
and, in this source, never updated afterwards), and the Run-Test/Idle
dwell count (initially 1, settable via Tap::rtiCount). -/
structure Tap where
  currState : TapState
  lastIr : Nat
  rtiCount : Nat
  deriving DecidableEq, Repr

/-- Tap::Tap initial register values (mLastIr = 0, mRtiCount = 1).
mCurrState is not initialized by the constructor; it is first assigned
by Tap::reset, so we take the post-reset state as a parameter. -/
def tapInit (cur : TapState) : Tap :=
  { currState := cur, lastIr := 0, rtiCount := 1 }

/-- Tap::rtiCount setter. -/
def tapRtiCount (t : Tap) (n : Nat) : Tap :=
  { t with rtiCount := n }

/-- State effect of Tap::reset on success: the TAP model is put in
Run-Test/Idle (source line: mCurrState = RUN_TEST_IDLE, with the
comment that it should be Test-Logic-Reset but this DUT resets to
Run-Test/Idle).  Failure (simulation ending during reset) leaves the
state machent untouched and is not modelled here. -/
def tapReset (t : Tap) : Tap :=
  { t with currState := RUN_TEST_IDLE }

/-- The Run-Test/Idle dwell loop of Tap::accessReg
(for i = 0; i < mRtiCount; i++) gotoState (RUN_TEST_IDLE),
instrumented with the total number of advanceState calls. -/
def rtiDwell : Nat → TapState → Option (TapState × Nat)
  | 0, cur => some (cur, 0)
  | n + 1, cur => do
      let (c, k) ← gotoState cur RUN_TEST_IDLE
      let (c2, k2) ← rtiDwell n c
      pure (c2, k + k2)

/-- State effect of Tap::shiftIr: go to Shift-IR, shift IR_LEN - 1
bits with TMS low, the final bit with TMS high, then go to Update-IR.
The TDI values shifted do not affect the state machine. -/
def shiftIr (cur : TapState) : Option (TapState × Nat) := do
  let (c1, n1) ← gotoState cur SHIFT_IR
  let c2 := (List.range (IR_LEN - 1)).foldl (fun s _ => tapTrans s false) c1
  let c3 := tapTrans c2 true
  let (c4, n4) ← gotoState c3 UPDATE_IR
  pure (c4, n1 + (IR_LEN - 1) + 1 + n4)

/-- State effect of Tap::shiftDr for a len-bit register: go to
Shift-DR, shift the first bit with TMS low, len - 2 middle bits with
TMS low, the last-but-one with TMS high, the last with TMS low, then
go to Update-DR.  The source loop (for i = 1; i < len - 1) runs
len - 2 times for len ≥ 2 and not at all for len = 1; len = 0 (whose
size_t arithmetic would wrap in C++) is excluded by hypothesis in the
theorems below. -/
def shiftDr (cur : TapState) (len : Nat) : Option (TapState × Nat) := do
  let (c1, n1) ← gotoState cur SHIFT_DR
  let c2 := tapTrans c1 false
  let c3 := (List.range (len - 2)).foldl (fun s _ => tapTrans s false) c2
  let c4 := tapTrans c3 true
  let c5 := tapTrans c4 false
  let (c6, n6) ← gotoState c5 UPDATE_DR
  pure (c6, n1 + 1 + (len - 2) + 2 + n6)

/-- State effect of Tap::accessReg: reject len > 64 (the source calls
exit); if the IR is unchanged dwell in Run-Test/Idle mRtiCount times,
otherwise shift the new IR; then shift the DR and finish with
gotoState (UPDATE_DR).  Returns the new Tap state, the number of
advanceState calls of the dwell phase, and the total advanceState
count.  mLastIr is not updated, exactly as in the source. -/
def accessReg (t : Tap) (ir len : Nat) : Option (Tap × Nat × Nat) := do
  if len > 64 then none
  else
    let (c0, k0) ← if t.lastIr == ir then rtiDwell t.rtiCount t.currState
                   else shiftIr t.currState
    let (c1, k1) ← shiftDr c0 len
    let (c2, k2) ← gotoState c1 UPDATE_DR
    pure ({ t with currState := c2 }, k0, k0 + k1 + k2)

/-- Tap::writeReg, a thin wrapper of accessReg discarding the read. -/
def writeReg (t : Tap) (ir _wdata len : Nat) : Option (Tap × Nat × Nat) :=
  accessReg t ir len

/-- Tap::readReg, a thin wrapper of accessReg writing zero. -/
def readReg (t : Tap) (ir len : Nat) : Option (Tap × Nat × Nat) :=
  accessReg t ir len

/-! ## The Verilator simulation facade (VSim.h / VSim.cpp)

One tick is one nanosecond.  Pin levels are naturals 0 / 1, exactly as
the vluint8_t signals in the source. -/

structure VSim where
  clkHalfPeriodTicks : Nat
  tckHalfPeriodTicks : Nat
  resetPeriodTicks : Nat
  simTimeTicks : Nat
  tickCount : Nat
  refClk : Nat
  rstn : Nat
  tck : Nat
  trst : Nat
  tckPosedge : Bool
  tckNegedge : Bool
  deriving DecidableEq, Repr

/-- VSim::VSim.  Clock timings: the main-clock half period is
clkPeriodNs / 2 ticks, the TCK half period is twice that, and the
reset period is ten TCK half periods.  Initially the clock and TCK
are high and we count as being at a TCK positive edge. -/
def vsimInit (clkPeriodNs simTimeNs : Nat) : VSim :=
  let clkHalf := clkPeriodNs / 2
  let tckHalf := clkHalf * 2
  let resetTicks := tckHalf * 10
  let nResetBit : Nat := if 0 < resetTicks then 0 else 1
  { clkHalfPeriodTicks := clkHalf
    tckHalfPeriodTicks := tckHalf
    resetPeriodTicks := resetTicks
    simTimeTicks := simTimeNs
    tickCount := 0
    refClk := 1
    rstn := nResetBit
    tck := 1
    trst := nResetBit
    tckPosedge := true
    tckNegedge := false }

/-- VSim::advanceHalfPeriod: add one main half period to the tick
counter and recompute every pin as a pure function of the new count;
the posedge/negedge flags compare old and new TCK levels. -/
def advanceHalfPeriod (s : VSim) : VSim :=
  let tickCount := s.tickCount + s.clkHalfPeriodTicks
  let oldTck := s.tck
  let nResetBit : Nat := if tickCount < s.resetPeriodTicks then 0 else 1
  let refClk := 1 - (tickCount / s.clkHalfPeriodTicks) % 2
  let tck := 1 - (tickCount / s.tckHalfPeriodTicks) % 2
  { s with
    tickCount := tickCount
    refClk := refClk
    rstn := nResetBit
    tck := tck
    trst := nResetBit
    tckPosedge := oldTck == 0 && tck == 1
    tckNegedge := oldTck == 1 && tck == 0 }

/-- k successive half-period advances. -/
def advanceN (s : VSim) : Nat → VSim
  | 0 => s
  | k + 1 => advanceHalfPeriod (advanceN s k)

/-- VSim::inReset. -/
def inReset (s : VSim) : Bool :=
  s.tickCount < s.resetPeriodTicks

/-! ## The JTAG Debug Transport Module (DtmJtag.h / DtmJtag.cpp) -/

/-- The hard-coded RISC-V JTAG TAP instruction register values. -/
def BYPASS0 : Nat := 0x00

def IDCODE : Nat := 0x01

def DTMCS : Nat := 0x10

def DMIACCESS : Nat := 0x11

/-- DMI op field values when writing. -/
def OP_NOP : Nat := 0

def OP_READ : Nat := 1

def OP_WRITE : Nat := 2

/-- DMI result field values when reading. -/
def RES_OK : Nat := 0

def RES_ERROR : Nat := 2

def RES_RETRY : Nat := 3

/-- The polling loop of DtmJtag::dmiRead.  Its input is the sequence
of dmiaccess scan-outs the TAP would deliver on successive readReg
calls.  Each scan whose two-bit result field is RETRY provokes one
writeDtmcs (0x10000) DMI reset (recorded in the returned list) and
another poll; the first non-RETRY scan ends the loop.  On a non-OK,
non-RETRY result the source emits a diagnostic and falls through, so
the data field, bits 33:2 of the final scan, is returned in every
terminating case.  none models the source spinning forever on an
all-RETRY stream. -/
def dmiReadPoll : List Nat → Option (Nat × List Nat)
  | [] => none
  | r :: rest =>
      if r &&& 0x3 = RES_RETRY then
        match dmiReadPoll rest with
        | some (d, resets) => some (d, 0x10000 :: resets)
        | none => none
      else some ((r >>> 2) &&& 0xffffffff, [])

/-- DtmJtag::dmiRead: the DR value written to request the read (op =
OP_READ, masked address in bits above 34), paired with the result of
the polling loop over the given scan-out stream. -/
def dmiRead (address addrMask : Nat) (scans : List Nat) :
    Nat × Option (Nat × List Nat) :=
  (OP_READ ||| ((address &&& addrMask) <<< 34), dmiReadPoll scans)

/-! ## The dmcontrol register model (Dmi.h / Dmi.cpp, class Dmi::Dmcontrol) -/

/-- A DMI transaction as issued by a register accessor through the
DTM: dmiRead of an address, or dmiWrite of an address and data. -/
inductive DmiOp : Type
  | read (addr : Nat)
  | write (addr : Nat) (data : Nat)
  deriving DecidableEq, Repr

/-- True iff the operation is a dmiRead. -/
def DmiOp.isRead : DmiOp → Bool
  | .read _ => true
  | .write _ _ => false

def HARTSELLO_MASK : Nat := 0x03ff0000

def HARTSELHI_MASK : Nat := 0x0000ffc0

def DMACTIVE_MASK : Nat := 0x00000001

def HARTSELLO_OFFSET : Nat := 16

def HARTSELHI_OFFSET : Nat := 6

def HARTSELLO_SIZE : Nat := 10

def HARTSELHI_SIZE : Nat := 10

/-- DMI address of dmcontrol. -/
def DMCONTROL_DMI_ADDR : Nat := 0x10

/-- Reset value of dmcontrol. -/
def DMCONTROL_RESET_VALUE : Nat := 0x0

/-- Dmi::Dmcontrol state: the remembered current hartsel and the
cached 32-bit register value. -/
structure Dmcontrol where
  currentHartsel : Nat
  reg : Nat
  deriving DecidableEq, Repr

/-- Dmi::Dmcontrol::Dmcontrol constructor values. -/
def dmcontrolInit : Dmcontrol :=
  { currentHartsel := 0, reg := DMCONTROL_RESET_VALUE }

/-- The register update of the Dmi::Dmcontrol::hartsel setter: clear
both hartsel fields, then place bits 9:0 of the value in register
bits 25:16 (hartsello) and bits 19:10 in register bits 15:6
(hartselhi).  The and-not of the source acts on a uint32, modelled by
xor against 0xffffffff. -/
def hartselFields (hartselVal reg : Nat) : Nat :=
  let hartsello := (hartselVal <<< HARTSELLO_OFFSET) &&& HARTSELLO_MASK
  let hartselhi :=
    ((hartselVal >>> HARTSELLO_SIZE) <<< HARTSELHI_OFFSET) &&& HARTSELHI_MASK
  (reg &&& (0xffffffff ^^^ (HARTSELLO_MASK ||| HARTSELHI_MASK)))
    ||| hartselhi ||| hartsello

/-- Dmi::Dmcontrol::hartsel setter: remembers the selected hart and
updates the cached register fields. -/
def hartselSet (d : Dmcontrol) (hartselVal : Nat) : Dmcontrol :=
  { currentHartsel := hartselVal, reg := hartselFields hartselVal d.reg }

/-- Dmi::Dmcontrol::hartsel getter: reassemble hartselhi << 10 with
hartsello from the cached register value. -/
def hartselGet (reg : Nat) : Nat :=
  let hartsello := (reg &&& HARTSELLO_MASK) >>> HARTSELLO_OFFSET
  let hartselhi := (reg &&& HARTSELHI_MASK) >>> HARTSELHI_OFFSET
  (hartselhi <<< HARTSELLO_SIZE) ||| hartsello

/-- Dmi::Dmcontrol::hartselMax. -/
def hartselMax : Nat :=
  ((HARTSELHI_MASK >>> HARTSELHI_OFFSET) <<< HARTSELLO_SIZE)
    ||| (HARTSELLO_MASK >>> HARTSELLO_OFFSET)

/-- Dmi::Dmcontrol::reset: restore the reset value but re-apply the
most recently selected hartsel to the cached register. -/
def dmcontrolReset (d : Dmcontrol) : Dmcontrol :=
  hartselSet { d with reg := DMCONTROL_RESET_VALUE } d.currentHartsel

/-- Dmi::Dmcontrol::dmactive setter. -/
def dmactiveSet (d : Dmcontrol) (flag : Bool) : Dmcontrol :=
  { d with reg :=
      if flag then d.reg ||| DMACTIVE_MASK
      else d.reg &&& (0xffffffff ^^^ DMACTIVE_MASK) }

/-- Dmi::Dmcontrol::write: one dmiWrite of the cached value. -/
def dmcontrolWrite (d : Dmcontrol) : List DmiOp :=
  [DmiOp.write DMCONTROL_DMI_ADDR d.reg]

/-- Dmi::selectHart: reset dmcontrol, set hartsel, set dmactive,
write.  Returns the new accessor state and the DMI traffic issued. -/
def selectHart (d : Dmcontrol) (h : Nat) : Dmcontrol × List DmiOp :=
  let d1 := dmcontrolReset d
  let d2 := hartselSet d1 h
  let d3 := dmactiveSet d2 true
  (d3, dmcontrolWrite d3)

/-- Dmi::hartsellen: select the maximum possible hartsel, reset the
accessor, and return the hartsel getter of the cached register.
Returns the value, the final accessor state, and all DMI traffic. -/
def hartsellen (d : Dmcontrol) : Nat × Dmcontrol × List DmiOp :=
  let r1 := selectHart d hartselMax
  let d2 := dmcontrolReset r1.1
  (hartselGet d2.reg, d2, r1.2)

/-! ## The sbcs register model (Dmi.h / Dmi.cpp, class Dmi::Sbcs) -/

def SBVERSION_MASK : Nat := 0xe0000000

def SBACCESS_MASK : Nat := 0x000e0000

def SBVERSION_OFFSET : Nat := 29

def SBACCESS_OFFSET : Nat := 17

/-- Reset value of sbcs. -/
def SBCS_RESET_VALUE : Nat := 0x20040000

/-- The sbaccess enumeration of Dmi::Sbcs. -/
inductive SbaccessVal : Type
  | SBACCESS_8
  | SBACCESS_16
  | SBACCESS_32
  | SBACCESS_64
  | SBACCESS_128
  | SBACCESS_UNKNOWN
  deriving DecidableEq, Repr

/-- Numeric value of the sbaccess enumeration, as in the source. -/
def SbaccessVal.val : SbaccessVal → Nat
  | .SBACCESS_8 => 0
  | .SBACCESS_16 => 1
  | .SBACCESS_32 => 2
  | .SBACCESS_64 => 3
  | .SBACCESS_128 => 4
  | .SBACCESS_UNKNOWN => 5

/-- Dmi::Sbcs state: the cached 32-bit register value. -/
structure Sbcs where
  reg : Nat
  deriving DecidableEq, Repr

/-- Dmi::Sbcs::reset: set the cached register to the reset value. -/
def sbcsReset (_s : Sbcs) : Sbcs :=
  { reg := SBCS_RESET_VALUE }

/-- Dmi::Sbcs::sbversion getter (bits 31:29). -/
def sbversion (s : Sbcs) : Nat :=
  (s.reg &&& SBVERSION_MASK) >>> SBVERSION_OFFSET

/-- Dmi::Sbcs::sbaccess getter (bits 19:17), with the source switch
mapping the raw field to the enumeration and any value above
SBACCESS_128 to SBACCESS_UNKNOWN. -/
def sbaccess (s : Sbcs) : SbaccessVal :=
  match (s.reg &&& SBACCESS_MASK) >>> SBACCESS_OFFSET with
  | 0 => .SBACCESS_8
  | 1 => .SBACCESS_16
  | 2 => .SBACCESS_32
  | 3 => .SBACCESS_64
  | 4 => .SBACCESS_128
  | _ => .SBACCESS_UNKNOWN

/-! ## The debugger-facing register routing (Cv32e40.cpp) -/

def REG_ZERO_GDBNUM : Nat := 0x0

def REG_PC_GDBNUM : Nat := 0x20

def REG_FT0_GDBNUM : Nat := 0x21

def REG_CSR0_GDBNUM : Nat := 0x41

def REG_CSR_LAST_GDBNUM : Nat := REG_CSR0_GDBNUM + 0xfff

/-- Base regno of the GPRs for abstract-command access (Dmi.h). -/
def GPR_BASE : Nat := 0x1000

/-- Base regno of the FPRs for abstract-command access (Dmi.h). -/
def FPR_BASE : Nat := 0x1020

/-- CSR address of dpc (Dmi.h, Csr::DPC). -/
def DPC : Nat := 0x7b1

/-- The abstract-command regno that Cv32e40::readRegister requests
for a debugger register index, following the source branch structure:
GPRs pass through Dmi::readGpr (GPR_BASE + reg), the PC reads CSR
dpc, the FPR branch passes reg itself to Dmi::readFpr
(FPR_BASE + reg), CSRs subtract their base.  none is the error
branch, which reads nothing.  Debugger indices are non-negative ints
in the source; naturals here. -/
def readRegisterRegno (reg : Nat) : Option Nat :=
  if REG_ZERO_GDBNUM ≤ reg ∧ reg < REG_PC_GDBNUM then
    some (GPR_BASE + reg)
  else if reg = REG_PC_GDBNUM then
    some DPC
  else if REG_FT0_GDBNUM ≤ reg ∧ reg < REG_CSR0_GDBNUM then
    some (FPR_BASE + reg)
  else if REG_CSR0_GDBNUM ≤ reg ∧ reg ≤ REG_CSR_LAST_GDBNUM then
    some (reg - REG_CSR0_GDBNUM)
  else
    none

/-- The abstract-command regno that Cv32e40::writeRegister requests;
the branch structure is identical to readRegister. -/
def writeRegisterRegno (reg : Nat) : Option Nat :=
  if REG_ZERO_GDBNUM ≤ reg ∧ reg < REG_PC_GDBNUM then
    some (GPR_BASE + reg)
  else if reg = REG_PC_GDBNUM then
    some DPC
  else if REG_FT0_GDBNUM ≤ reg ∧ reg < REG_CSR0_GDBNUM then
    some (FPR_BASE + reg)
  else if REG_CSR0_GDBNUM ≤ reg ∧ reg ≤ REG_CSR_LAST_GDBNUM then
    some (reg - REG_CSR0_GDBNUM)
  else
    none

/-- Cv32e40::write: a zero-length write returns its size at once; a
non-zero write copies the buffer and issues one Dmi::writeMem.  The
second component is the list of (address, byte count) writeMem calls
issued. -/
def cv32e40Write (addr : Nat) (buffer : List Nat) (size : Nat) :
    Nat × List (Nat × Nat) :=
  if size = 0 then (size, [])
  else
    let _buf := buffer.take size
    (size, [(addr, size)])

/-! ## The CSR catalogue (Dmi.h, Dmi::mCsrMap) -/

/-- The CSR group enumeration (Dmi::CsrType). -/
inductive CsrType : Type
  | NONE
  | ANY
  | FP
  | HWLP
  deriving DecidableEq, Repr

/-- One catalogue entry: CSR address, printable name, read-only flag,
and group, exactly the fields of Dmi::CsrInfo keyed by address. -/
structure CsrInfo where
  addr : Nat
  name : String
  readOnly : Bool
  type : CsrType
  deriving DecidableEq, Repr

/-- The 189 entries of Dmi::mCsrMap, transcribed from the source in
order with each Csr:: address constant resolved to its numeric value,
split into four sub-lists to keep elaboration small.  The map has no
duplicate keys. -/
def csrMapPart0 : List CsrInfo :=
  [⟨1, "fflags", false, CsrType.FP⟩,
    ⟨2, "frm", false, CsrType.FP⟩,
    ⟨3, "fcsr", false, CsrType.FP⟩,
    ⟨3072, "cycle", true, CsrType.ANY⟩,
    ⟨3074, "instret", true, CsrType.ANY⟩,
    ⟨3075, "hpmcounter3", true, CsrType.ANY⟩,
    ⟨3076, "hpmcounter4", true, CsrType.ANY⟩,
    ⟨3077, "hpmcounter5", true, CsrType.ANY⟩,
    ⟨3078, "hpmcounter6", true, CsrType.ANY⟩,
    ⟨3079, "hpmcounter7", true, CsrType.ANY⟩,
    ⟨3080, "hpmcounter8", true, CsrType.ANY⟩,
    ⟨3081, "hpmcounter9", true, CsrType.ANY⟩,
    ⟨3082, "hpmcounter10", true, CsrType.ANY⟩,
    ⟨3083, "hpmcounter11", true, CsrType.ANY⟩,
    ⟨3084, "hpmcounter12", true, CsrType.ANY⟩,
    ⟨3085, "hpmcounter13", true, CsrType.ANY⟩,
    ⟨3086, "hpmcounter14", true, CsrType.ANY⟩,
    ⟨3087, "hpmcounter15", true, CsrType.ANY⟩,
    ⟨3088, "hpmcounter16", true, CsrType.ANY⟩,
    ⟨3089, "hpmcounter17", true, CsrType.ANY⟩,
    ⟨3090, "hpmcounter18", true, CsrType.ANY⟩,
    ⟨3091, "hpmcounter19", true, CsrType.ANY⟩,
    ⟨3092, "hpmcounter20", true, CsrType.ANY⟩,
    ⟨3093, "hpmcounter21", true, CsrType.ANY⟩,
    ⟨3094, "hpmcounter22", true, CsrType.ANY⟩,
    ⟨3095, "hpmcounter23", true, CsrType.ANY⟩,
    ⟨3096, "hpmcounter24", true, CsrType.ANY⟩,
    ⟨3097, "hpmcounter25", true, CsrType.ANY⟩,
    ⟨3098, "hpmcounter26", true, CsrType.ANY⟩,
    ⟨3099, "hpmcounter27", true, CsrType.ANY⟩,
    ⟨3100, "hpmcounter28", true, CsrType.ANY⟩,
    ⟨3101, "hpmcounter29", true, CsrType.ANY⟩,
    ⟨3102, "hpmcounter30", true, CsrType.ANY⟩,
    ⟨3103, "hpmcounter31", true, CsrType.ANY⟩,
    ⟨3200, "cycleh", true, CsrType.ANY⟩,
    ⟨3202, "instreth", true, CsrType.ANY⟩,
    ⟨3203, "hpmcounterh3", true, CsrType.ANY⟩,
    ⟨3204, "hpmcounterh4", true, CsrType.ANY⟩,
    ⟨3205, "hpmcounterh5", true, CsrType.ANY⟩,
    ⟨3206, "hpmcounterh6", true, CsrType.ANY⟩,
    ⟨3207, "hpmcounterh7", true, CsrType.ANY⟩,
    ⟨3208, "hpmcounterh8", true, CsrType.ANY⟩,
    ⟨3209, "hpmcounterh9", true, CsrType.ANY⟩,
    ⟨3210, "hpmcounterh10", true, CsrType.ANY⟩,
    ⟨3211, "hpmcounterh11", true, CsrType.ANY⟩,
    ⟨3212, "hpmcounterh12", true, CsrType.ANY⟩,
    ⟨3213, "hpmcounterh13", true, CsrType.ANY⟩,
    ⟨3214, "hpmcounterh14", true, CsrType.ANY⟩ ]

def csrMapPart1 : List CsrInfo :=
  [⟨3215, "hpmcounterh15", true, CsrType.ANY⟩,
    ⟨3216, "hpmcounterh16", true, CsrType.ANY⟩,
    ⟨3217, "hpmcounterh17", true, CsrType.ANY⟩,
    ⟨3218, "hpmcounterh18", true, CsrType.ANY⟩,
    ⟨3219, "hpmcounterh19", true, CsrType.ANY⟩,
    ⟨3220, "hpmcounterh20", true, CsrType.ANY⟩,
    ⟨3221, "hpmcounterh21", true, CsrType.ANY⟩,
    ⟨3222, "hpmcounterh22", true, CsrType.ANY⟩,
    ⟨3223, "hpmcounterh23", true, CsrType.ANY⟩,
    ⟨3224, "hpmcounterh24", true, CsrType.ANY⟩,
    ⟨3225, "hpmcounterh25", true, CsrType.ANY⟩,
    ⟨3226, "hpmcounterh26", true, CsrType.ANY⟩,
    ⟨3227, "hpmcounterh27", true, CsrType.ANY⟩,
    ⟨3228, "hpmcounterh28", true, CsrType.ANY⟩,
    ⟨3229, "hpmcounterh29", true, CsrType.ANY⟩,
    ⟨3230, "hpmcounterh30", true, CsrType.ANY⟩,
    ⟨3231, "hpmcounterh31", true, CsrType.ANY⟩,
    ⟨2048, "lpstart0", false, CsrType.HWLP⟩,
    ⟨2049, "lpend0", false, CsrType.HWLP⟩,
    ⟨2050, "lpcount0", false, CsrType.HWLP⟩,
    ⟨2052, "lpstart1", false, CsrType.HWLP⟩,
    ⟨2053, "lpend1", false, CsrType.HWLP⟩,
    ⟨2054, "lpcount1", false, CsrType.HWLP⟩,
    ⟨3264, "uhartid", true, CsrType.ANY⟩,
    ⟨3265, "privlv", true, CsrType.ANY⟩,
    ⟨768, "mstatus", false, CsrType.ANY⟩,
    ⟨769, "misa", false, CsrType.ANY⟩,
    ⟨772, "mie", false, CsrType.ANY⟩,
    ⟨773, "mtvec", false, CsrType.ANY⟩,
    ⟨800, "mcountinhibit", false, CsrType.ANY⟩,
    ⟨803, "mhpmevent3", false, CsrType.ANY⟩,
    ⟨804, "mhpmevent4", false, CsrType.ANY⟩,
    ⟨805, "mhpmevent5", false, CsrType.ANY⟩,
    ⟨806, "mhpmevent6", false, CsrType.ANY⟩,
    ⟨807, "mhpmevent7", false, CsrType.ANY⟩,
    ⟨808, "mhpmevent8", false, CsrType.ANY⟩,
    ⟨809, "mhpmevent9", false, CsrType.ANY⟩,
    ⟨810, "mhpmevent10", false, CsrType.ANY⟩,
    ⟨811, "mhpmevent11", false, CsrType.ANY⟩,
    ⟨812, "mhpmevent12", false, CsrType.ANY⟩,
    ⟨813, "mhpmevent13", false, CsrType.ANY⟩,
    ⟨814, "mhpmevent14", false, CsrType.ANY⟩,
    ⟨815, "mhpmevent15", false, CsrType.ANY⟩,
    ⟨816, "mhpmevent16", false, CsrType.ANY⟩,
    ⟨817, "mhpmevent17", false, CsrType.ANY⟩,
    ⟨818, "mhpmevent18", false, CsrType.ANY⟩,
    ⟨819, "mhpmevent19", false, CsrType.ANY⟩,
    ⟨820, "mhpmevent20", false, CsrType.ANY⟩ ]

def csrMapPart2 : List CsrInfo :=
  [⟨821, "mhpmevent21", false, CsrType.ANY⟩,
    ⟨822, "mhpmevent22", false, CsrType.ANY⟩,
    ⟨823, "mhpmevent23", false, CsrType.ANY⟩,
    ⟨824, "mhpmevent24", false, CsrType.ANY⟩,
    ⟨825, "mhpmevent25", false, CsrType.ANY⟩,
    ⟨826, "mhpmevent26", false, CsrType.ANY⟩,
    ⟨827, "mhpmevent27", false, CsrType.ANY⟩,
    ⟨828, "mhpmevent28", false, CsrType.ANY⟩,
    ⟨829, "mhpmevent29", false, CsrType.ANY⟩,
    ⟨830, "mhpmevent30", false, CsrType.ANY⟩,
    ⟨831, "mhpmevent31", false, CsrType.ANY⟩,
    ⟨832, "mscratch", false, CsrType.ANY⟩,
    ⟨833, "mepc", false, CsrType.ANY⟩,
    ⟨834, "mcause", false, CsrType.ANY⟩,
    ⟨835, "mtval", false, CsrType.ANY⟩,
    ⟨836, "mip", false, CsrType.ANY⟩,
    ⟨1952, "tselect", false, CsrType.ANY⟩,
    ⟨1953, "tdata1", false, CsrType.ANY⟩,
    ⟨1954, "tdata2", false, CsrType.ANY⟩,
    ⟨1955, "tdata3", false, CsrType.ANY⟩,
    ⟨1956, "tinfo", true, CsrType.ANY⟩,
    ⟨1960, "mcontext", false, CsrType.ANY⟩,
    ⟨1962, "scontext", false, CsrType.ANY⟩,
    ⟨1968, "dcsr", false, CsrType.ANY⟩,
    ⟨1969, "dpc", false, CsrType.ANY⟩,
    ⟨1970, "dscratch0", false, CsrType.ANY⟩,
    ⟨1971, "dscratch1", false, CsrType.ANY⟩,
    ⟨2816, "mcycle", false, CsrType.ANY⟩,
    ⟨2818, "minstret", false, CsrType.ANY⟩,
    ⟨2819, "mhpmcounter3", false, CsrType.ANY⟩,
    ⟨2820, "mhpmcounter4", false, CsrType.ANY⟩,
    ⟨2821, "mhpmcounter5", false, CsrType.ANY⟩,
    ⟨2822, "mhpmcounter6", false, CsrType.ANY⟩,
    ⟨2823, "mhpmcounter7", false, CsrType.ANY⟩,
    ⟨2824, "mhpmcounter8", false, CsrType.ANY⟩,
    ⟨2825, "mhpmcounter9", false, CsrType.ANY⟩,
    ⟨2826, "mhpmcounter10", false, CsrType.ANY⟩,
    ⟨2827, "mhpmcounter11", false, CsrType.ANY⟩,
    ⟨2828, "mhpmcounter12", false, CsrType.ANY⟩,
    ⟨2829, "mhpmcounter13", false, CsrType.ANY⟩,
    ⟨2830, "mhpmcounter14", false, CsrType.ANY⟩,
    ⟨2831, "mhpmcounter15", false, CsrType.ANY⟩,
    ⟨2832, "mhpmcounter16", false, CsrType.ANY⟩,
    ⟨2833, "mhpmcounter17", false, CsrType.ANY⟩,
    ⟨2834, "mhpmcounter18", false, CsrType.ANY⟩,
    ⟨2835, "mhpmcounter19", false, CsrType.ANY⟩,
    ⟨2836, "mhpmcounter20", false, CsrType.ANY⟩,
    ⟨2837, "mhpmcounter21", false, CsrType.ANY⟩ ]

def csrMapPart3 : List CsrInfo :=
  [⟨2838, "mhpmcounter22", false, CsrType.ANY⟩,
    ⟨2839, "mhpmcounter23", false, CsrType.ANY⟩,
    ⟨2840, "mhpmcounter24", false, CsrType.ANY⟩,
    ⟨2841, "mhpmcounter25", false, CsrType.ANY⟩,
    ⟨2842, "mhpmcounter26", false, CsrType.ANY⟩,
    ⟨2843, "mhpmcounter27", false, CsrType.ANY⟩,
    ⟨2844, "mhpmcounter28", false, CsrType.ANY⟩,
    ⟨2845, "mhpmcounter29", false, CsrType.ANY⟩,
    ⟨2846, "mhpmcounter30", false, CsrType.ANY⟩,
    ⟨2847, "mhpmcounter31", false, CsrType.ANY⟩,
    ⟨2944, "mcycleh", false, CsrType.ANY⟩,
    ⟨2946, "minstreth", false, CsrType.ANY⟩,
    ⟨2947, "mhpmcounterh3", false, CsrType.ANY⟩,
    ⟨2948, "mhpmcounterh4", false, CsrType.ANY⟩,
    ⟨2949, "mhpmcounterh5", false, CsrType.ANY⟩,
    ⟨2950, "mhpmcounterh6", false, CsrType.ANY⟩,
    ⟨2951, "mhpmcounterh7", false, CsrType.ANY⟩,
    ⟨2952, "mhpmcounterh8", false, CsrType.ANY⟩,
    ⟨2953, "mhpmcounterh9", false, CsrType.ANY⟩,
    ⟨2954, "mhpmcounterh10", false, CsrType.ANY⟩,
    ⟨2955, "mhpmcounterh11", false, CsrType.ANY⟩,
    ⟨2956, "mhpmcounterh12", false, CsrType.ANY⟩,
    ⟨2957, "mhpmcounterh13", false, CsrType.ANY⟩,
    ⟨2958, "mhpmcounterh14", false, CsrType.ANY⟩,
    ⟨2959, "mhpmcounterh15", false, CsrType.ANY⟩,
    ⟨2960, "mhpmcounterh16", false, CsrType.ANY⟩,
    ⟨2961, "mhpmcounterh17", false, CsrType.ANY⟩,
    ⟨2962, "mhpmcounterh18", false, CsrType.ANY⟩,
    ⟨2963, "mhpmcounterh19", false, CsrType.ANY⟩,
    ⟨2964, "mhpmcounterh20", false, CsrType.ANY⟩,
    ⟨2965, "mhpmcounterh21", false, CsrType.ANY⟩,
    ⟨2966, "mhpmcounterh22", false, CsrType.ANY⟩,
    ⟨2967, "mhpmcounterh23", false, CsrType.ANY⟩,
    ⟨2968, "mhpmcounterh24", false, CsrType.ANY⟩,
    ⟨2969, "mhpmcounterh25", false, CsrType.ANY⟩,
    ⟨2970, "mhpmcounterh26", false, CsrType.ANY⟩,
    ⟨2971, "mhpmcounterh27", false, CsrType.ANY⟩,
    ⟨2972, "mhpmcounterh28", false, CsrType.ANY⟩,
    ⟨2973, "mhpmcounterh29", false, CsrType.ANY⟩,
    ⟨2974, "mhpmcounterh30", false, CsrType.ANY⟩,
    ⟨2975, "mhpmcounterh31", false, CsrType.ANY⟩,
    ⟨3857, "mvendorid", true, CsrType.ANY⟩,
    ⟨3858, "marchid", true, CsrType.ANY⟩,
    ⟨3859, "mimpid", true, CsrType.ANY⟩,
    ⟨3860, "mhartid", true, CsrType.ANY⟩ ]

def csrMap : List CsrInfo :=
  csrMapPart0 ++ csrMapPart1 ++ csrMapPart2 ++ csrMapPart3


/-- Lookup in the catalogue by address, the shallow model of
mCsrMap.at (which throws out_of_range on a missing key, caught by
each accessor). -/
def csrLookup (csrAddr : Nat) : Option CsrInfo :=
  csrMap.find? (fun e => e.addr == csrAddr)

/-- Dmi::csrName: the catalogued name, or UNKNOWN when absent. -/
def csrName (csrAddr : Nat) : String :=
  match csrLookup csrAddr with
  | some e => e.name
  | none => "UNKNOWN"

/-- Dmi::csrReadOnly: the catalogued flag, or true when absent. -/
def csrReadOnly (csrAddr : Nat) : Bool :=
  match csrLookup csrAddr with
  | some e => e.readOnly
  | none => true

/-- Dmi::csrType: the catalogued group, or NONE when absent. -/
def csrType (csrAddr : Nat) : CsrType :=
  match csrLookup csrAddr with
  | some e => e.type
  | none => CsrType.NONE

/-! ## Helper lemmas -/

theorem gotoState_reaches :
    ∀ cur tgt : TapState, ¬(cur = PAUSE_IR ∧ tgt = SHIFT_IR) →
      (gotoStateAux 16 cur tgt).1 = tgt := by
  decide

theorem gotoState_some :
    ∀ cur tgt : TapState, ∀ r, gotoState cur tgt = some r → r.1 = tgt := by
  intro cur tgt r hr
  simp only [gotoState] at hr
  split at hr
  · cases hr
    assumption
  · cases hr

/-- A dwell iteration that starts in Run-Test/Idle consumes no TCK
cycle at all: gotoState is a no-op when already at its target. -/
theorem rtiDwell_from_idle :
    ∀ n, rtiDwell n RUN_TEST_IDLE = some (RUN_TEST_IDLE, 0) := by
  intro n
  induction n with
  | zero => rfl
  | succ m ih =>
      have h0 : gotoState RUN_TEST_IDLE RUN_TEST_IDLE
          = some (RUN_TEST_IDLE, 0) := rfl
      simp [rtiDwell, h0, ih]

theorem advanceN_clkHalf (v : VSim) (k : Nat) :
    (advanceN v k).clkHalfPeriodTicks = v.clkHalfPeriodTicks := by
  induction k with
  | zero => rfl
  | succ m ih => simp [advanceN, advanceHalfPeriod, ih]

theorem advanceN_tckHalf (v : VSim) (k : Nat) :
    (advanceN v k).tckHalfPeriodTicks = v.tckHalfPeriodTicks := by
  induction k with
  | zero => rfl
  | succ m ih => simp [advanceN, advanceHalfPeriod, ih]

theorem advanceN_tickCount (v : VSim) (k : Nat) :
    (advanceN v k).tickCount = v.tickCount + k * v.clkHalfPeriodTicks := by
  induction k with
  | zero => simp [advanceN]
  | succ m ih =>
      have hstep : (advanceN v (m + 1)).tickCount
          = (advanceN v m).tickCount + (advanceN v m).clkHalfPeriodTicks := rfl
      rw [hstep, ih, advanceN_clkHalf, Nat.succ_mul, ← Nat.add_assoc]

/-- The key bit identity behind the hartsel accessors: writing a
value through the setter field layout and reading it back through the
getter recovers the value modulo 2^20. -/
theorem hartselGet_hartselFields (h reg : Nat) :
    hartselGet (hartselFields h reg) = h % 2 ^ 20 := by
  have e1 : HARTSELLO_MASK = (2 ^ 10 - 1) <<< 16 := by decide
  have e2 : HARTSELHI_MASK = (2 ^ 10 - 1) <<< 6 := by decide
  have e3 : (0xffffffff : Nat) = 2 ^ 32 - 1 := by decide
  simp only [hartselGet, hartselFields, HARTSELLO_OFFSET, HARTSELHI_OFFSET,
    HARTSELLO_SIZE, e1, e2, e3]
  apply Nat.eq_of_testBit_eq
  intro i
  simp only [Nat.testBit_or, Nat.testBit_and, Nat.testBit_shiftLeft,
    Nat.testBit_shiftRight, Nat.testBit_mod_two_pow,
    Nat.testBit_two_pow_sub_one, Nat.testBit_xor]
  rcases Nat.lt_or_ge i 10 with hA | hA
  · have h1 : ¬ (i ≥ 10) := by omega
    have h2 : 16 + i - 16 = i := by omega
    have h3 : 16 + i ≥ 16 := by omega
    have h4 : 16 + i ≥ 6 := by omega
    have h5 : ¬ (16 + i - 6 < 10) := by omega
    have h6 : 16 + i < 32 := by omega
    have h7 : i < 20 := by omega
    have h8 : 16 + i - 16 < 10 := by omega
    simp [hA, h1, h2, h3, h4, h5, h6, h7, h8]
  · rcases Nat.lt_or_ge i 20 with hB | hB
    · have h1 : i ≥ 10 := hA
      have h2 : 6 + (i - 10) < 32 := by omega
      have h3 : ¬ (6 + (i - 10) ≥ 16) := by omega
      have h4 : 6 + (i - 10) ≥ 6 := by omega
      have h5 : 6 + (i - 10) - 6 < 10 := by omega
      have h6 : 10 + (6 + (i - 10) - 6) = i := by omega
      have h7 : ¬ (16 + i - 16 < 10) := by omega
      have h8 : i < 20 := hB
      have h9 : i - 10 < 10 := by omega
      have h10 : ¬ (i < 10) := by omega
      have h11 : ¬ (16 + i - 6 < 10) := by omega
      have h12 : 16 + i - 16 = i := by omega
      simp [h1, h2, h3, h4, h5, h6, h7, h8, h9, h10, h11, h12]
    · have h1 : ¬ (6 + (i - 10) - 6 < 10) := by omega
      have h2 : ¬ (16 + i - 16 < 10) := by omega
      have h3 : ¬ (i < 20) := by omega
      simp [h1, h2, h3]
      constructor <;> (intro _ ; omega)

/-! ## Claim theorems -/

/-- Claim C1 counterexample: with a main-clock period of 10 ns the
constructor maintains a TCK half period of 10 ticks, not the 50 ticks
a 10-times-slower TCK (period 100 ns) would need, and the TCK pin as
driven by advance_half_period completes a full cycle (high, low, high
again) within 20 ns. -/
theorem claim_C1_counterexample :
    (vsimInit 10 0).tckHalfPeriodTicks = 10 ∧
      (vsimInit 10 0).tckHalfPeriodTicks ≠ 50 ∧
      (advanceN (vsimInit 10 0) 2).tck = 0 ∧
      (advanceN (vsimInit 10 0) 4).tck = 1 := by
  decide

/-- Claim C1 (amended): for an even positive main-clock period P ns,
the TCK half period maintained by the VSim constructor equals P ticks
(two main half periods, as spec section 4.1 states), and after every
sequence of k half-period advances the TCK pin level is
1 - (k / 2) % 2: TCK toggles every two main half-periods, so its full
period is 2·P ns, not 10·P ns. -/
theorem claim_C1_tck_twice_main :
    ∀ P s : Nat, 0 < P → P % 2 = 0 →
      (vsimInit P s).tckHalfPeriodTicks = P ∧
      (vsimInit P s).tckHalfPeriodTicks
        = 2 * (vsimInit P s).clkHalfPeriodTicks ∧
      ∀ k, (advanceN (vsimInit P s) k).tck = 1 - (k / 2) % 2 := by
  intro P s hpos heven
  have hhalf : 0 < P / 2 := by omega
  refine ⟨?_, ?_, ?_⟩
  · show P / 2 * 2 = P
    omega
  · show P / 2 * 2 = 2 * (P / 2)
    omega
  · intro k
    cases k with
    | zero => rfl
    | succ m =>
        have ht : (advanceN (vsimInit P s) (m + 1)).tck
            = 1 - (((advanceN (vsimInit P s) m).tickCount
                + (advanceN (vsimInit P s) m).clkHalfPeriodTicks)
                  / (advanceN (vsimInit P s) m).tckHalfPeriodTicks) % 2 := rfl
        rw [ht, advanceN_tickCount, advanceN_clkHalf, advanceN_tckHalf]
        have hfields : (vsimInit P s).tickCount = 0 ∧
            (vsimInit P s).clkHalfPeriodTicks = P / 2 ∧
            (vsimInit P s).tckHalfPeriodTicks = P / 2 * 2 := ⟨rfl, rfl, rfl⟩
        rw [hfields.1, hfields.2.1, hfields.2.2]
        have e : 0 + m * (P / 2) + P / 2 = (P / 2) * (m + 1) := by ring
        rw [e]
        rw [show P / 2 * 2 = P / 2 * 2 from rfl,
          Nat.mul_div_mul_left (m + 1) 2 hhalf]

theorem claim_C1_witness :
    (0 < 10 ∧ (10 : Nat) % 2 = 0) ∧
      (vsimInit 10 0).tckHalfPeriodTicks = 10 ∧
      (advanceN (vsimInit 10 0) 2).tck = 1 - (2 / 2) % 2 :=
  ⟨⟨by decide, by decide⟩,
   (claim_C1_tck_twice_main 10 0 (by decide) (by decide)).1,
   (claim_C1_tck_twice_main 10 0 (by decide) (by decide)).2.2 2⟩

/-- Claim C8 (confirmed): the Dmcontrol::hartsel setter followed by
the getter recovers exactly the written hart number for every h below
2^20, and the low twenty bits of h otherwise, for every prior
register value: the setter splits h into hartsello (bits 9:0, placed
at register bits 25:16) and hartselhi (bits 19:10, placed at register
bits 15:6) and the getter reassembles the two fields. -/
theorem claim_C8_hartsel_roundtrip :
    ∀ (d : Dmcontrol) (h : Nat),
      hartselGet (hartselSet d h).reg = h % 2 ^ 20 ∧
      (h < 2 ^ 20 → hartselGet (hartselSet d h).reg = h) := by
  intro d h
  have hcore : hartselGet (hartselSet d h).reg = h % 2 ^ 20 :=
    hartselGet_hartselFields h d.reg
  exact ⟨hcore, fun hlt => by rw [hcore, Nat.mod_eq_of_lt hlt]⟩

theorem claim_C8_witness :
    hartselGet (hartselSet dmcontrolInit 0x12345).reg = 0x12345 % 2 ^ 20 ∧
      hartselGet (hartselSet dmcontrolInit 0x12345).reg = 0x12345 :=
  ⟨(claim_C8_hartsel_roundtrip dmcontrolInit 0x12345).1,
   (claim_C8_hartsel_roundtrip dmcontrolInit 0x12345).2 (by decide)⟩

/-- Claim C3 (code bug): the Run-Test/Idle dwell loop of
Tap::accessReg, entered with the TAP in Update-DR (the state every
register access exits in) and an idle-cycle count n ≥ 1, spends
exactly one TCK cycle in Run-Test/Idle, not n: after the first
gotoState (RUN_TEST_IDLE) iteration the TAP is already in
Run-Test/Idle and every further iteration is a no-op.  The claim and
the dtmcs idle semantics require n cycles. -/
theorem claim_C3_rti_dwell_is_one_cycle :
    ∀ n, 1 ≤ n → rtiDwell n UPDATE_DR = some (RUN_TEST_IDLE, 1) := by
  intro n hn
  match n, hn with
  | m + 1, _ =>
      have h1 : gotoState UPDATE_DR RUN_TEST_IDLE = some (RUN_TEST_IDLE, 1) := by
        decide
      simp [rtiDwell, h1, rtiDwell_from_idle]

theorem claim_C3_witness :
    rtiDwell 3 UPDATE_DR = some (RUN_TEST_IDLE, 1) ∧ (1 : Nat) ≠ 3 :=
  ⟨claim_C3_rti_dwell_is_one_cycle 3 (by decide), by decide⟩

/-- Claim C2 counterexample: a register access performed with the TAP
in Run-Test/Idle (the state Tap::reset leaves it in), instruction
register 0x11 (dmiaccess) and a 32-bit data register terminates with
the TAP in Update-DR, which is neither Run-Test/Idle nor
Test-Logic-Reset, refuting the claimed exit invariant for
Tap::accessReg. -/
theorem claim_C2_counterexample :
    (accessReg ⟨RUN_TEST_IDLE, 0, 1⟩ 0x11 32).map (fun r => r.1.currState)
        = some UPDATE_DR ∧
      UPDATE_DR ≠ RUN_TEST_IDLE ∧ UPDATE_DR ≠ TEST_LOGIC_RESET := by
  decide

/-- Claim C2 (amended): on exit from Tap::reset the TAP is in
Run-Test/Idle, and on exit from every terminating
Tap::accessReg / writeReg / readReg (all three share the accessReg
state path) the TAP is in Update-DR — the state the operation
explicitly finishes in with its final gotoState (UPDATE_DR) — rather
than Run-Test/Idle or Test-Logic-Reset as claimed. -/
theorem claim_C2_amended :
    (∀ t : Tap, (tapReset t).currState = RUN_TEST_IDLE) ∧
    (∀ (t : Tap) (ir len : Nat) (r : Tap × Nat × Nat),
      1 ≤ len → accessReg t ir len = some r →
      r.1.currState = UPDATE_DR) := by
  constructor
  · intro t
    rfl
  · intro t ir len r _hlen h
    simp only [accessReg] at h
    split at h
    · simp at h
    · split at h <;>
        · simp only [Option.pure_def, Option.bind_eq_bind,
            Option.bind_eq_some, Option.some.injEq] at h
          obtain ⟨c0k0, _h0, c1k1, _h1, c2k2, h2, hr⟩ := h
          have hc2 : c2k2.1 = UPDATE_DR := gotoState_some _ _ _ h2
          rw [← hr]
          exact hc2

theorem claim_C2_witness :
    (1 ≤ 32) ∧
      ((⟨⟨UPDATE_DR, 0, 1⟩, 1, 39⟩ : Tap × Nat × Nat).1.currState
        = UPDATE_DR) :=
  ⟨by decide,
   claim_C2_amended.2 ⟨UPDATE_DR, 0, 1⟩ 0 32 ⟨⟨UPDATE_DR, 0, 1⟩, 1, 39⟩
     (by decide) (by decide)⟩

/-- Claim C4 (code bug): Dmi::hartsellen performs no DMI read at all:
its only DUT traffic is the single dmcontrol write of selectHart, and
its return value is the hartsel getter applied to the locally rebuilt
cache (Dmcontrol::reset re-applies the remembered hartsel to the
reset value), so it returns the maximum encodable hartsel 0xfffff for
every prior accessor state and every DUT — not the value latched by
and read back from the device as the claim requires. -/
theorem claim_C4_hartsellen_no_readback :
    ∀ d : Dmcontrol,
      (hartsellen d).1 = 0xfffff ∧
      (hartsellen d).1 = hartselMax ∧
      ((hartsellen d).2.2.all fun op => !op.isRead) = true := by
  intro d
  refine ⟨?_, ?_, ?_⟩
  · show hartselGet (hartselFields hartselMax DMCONTROL_RESET_VALUE) = 0xfffff
    decide
  · show hartselGet (hartselFields hartselMax DMCONTROL_RESET_VALUE)
      = hartselMax
    decide
  · rfl

/-- Claim C5 (code bug): at debugger register index 33, which the
claim maps to FPR 0 with abstract-command regno 0x1020, both
Cv32e40::readRegister and Cv32e40::writeRegister instead request
regno FPR_BASE + 33 = 0x1041, because the FPR branch passes the raw
debugger index to Dmi::readFpr / Dmi::writeFpr without subtracting
the FPR base index 33. -/
theorem claim_C5_fpr_regno_off_by_base :
    readRegisterRegno 33 = some 0x1041 ∧
    writeRegisterRegno 33 = some 0x1041 ∧ (0x1041 : Nat) ≠ 0x1020 := by
  decide

/-- Claim C7 (confirmed): after Dmi::Sbcs::reset the cached sbcs
value 0x20040000 decodes to sbversion = 1 (bits 31:29) and sbaccess =
SBACCESS_32 (bits 19:17 holding 2), for any prior accessor state. -/
theorem claim_C7_sbcs_reset_fields :
    ∀ s : Sbcs, sbversion (sbcsReset s) = 1 ∧
      sbaccess (sbcsReset s) = SbaccessVal.SBACCESS_32 ∧
      SbaccessVal.SBACCESS_32.val = 2 := by
  intro s
  rw [show sbcsReset s = ⟨SBCS_RESET_VALUE⟩ from rfl]
  refine ⟨by decide, by decide, by decide⟩

/-- Claim C6 (confirmed): over any scan-out stream consisting of a
block of RETRY results followed by a first non-RETRY scan, the
polling loop of DtmJtag::dmiRead issues exactly one dtmcs DMI reset
(value 0x10000, i.e. bit 16) per RETRY scan, stops at the first
non-RETRY scan whatever its result code (OK, ERROR or reserved), and
returns the 32-bit data field, bits 33:2, of that final scan. -/
theorem claim_C6_dmiRead_retry_policy :
    ∀ (address addrMask : Nat) (pre : List Nat) (r : Nat) (post : List Nat),
      (∀ x ∈ pre, x &&& 0x3 = RES_RETRY) → r &&& 0x3 ≠ RES_RETRY →
      (dmiRead address addrMask (pre ++ r :: post)).2
        = some ((r >>> 2) &&& 0xffffffff,
                List.replicate pre.length 0x10000) := by
  intro address addrMask pre r post hpre hr
  simp only [dmiRead]
  induction pre with
  | nil =>
      simp [dmiReadPoll, hr]
  | cons x rest ih =>
      have hx : x &&& 0x3 = RES_RETRY := hpre x (List.mem_cons_self x rest)
      have hrest : ∀ y ∈ rest, y &&& 0x3 = RES_RETRY := fun y hy =>
        hpre y (List.mem_cons_of_mem x hy)
      simp [dmiReadPoll, hx, List.append_eq, ih hrest, List.replicate_succ]

theorem claim_C6_witness :
    (dmiRead 0x11 0x3f ([7] ++ 0x1a :: [5])).2
      = some ((0x1a >>> 2) &&& 0xffffffff,
              List.replicate (List.length [7]) 0x10000) :=
  claim_C6_dmiRead_retry_policy 0x11 0x3f [7] 0x1a [5]
    (by decide) (by decide)

/-- Claim C9 (confirmed): for a CSR address absent from the
catalogue, Dmi::csrReadOnly reports true, Dmi::csrName reports
UNKNOWN and Dmi::csrType reports NONE; for a catalogued address each
accessor returns the corresponding field of the catalogue entry. -/
theorem claim_C9_csr_accessor_defaults :
    ∀ a : Nat, a < 65536 →
      (csrLookup a = none →
        csrReadOnly a = true ∧ csrName a = "UNKNOWN" ∧
          csrType a = CsrType.NONE) ∧
      (∀ e, csrLookup a = some e →
        csrReadOnly a = e.readOnly ∧ csrName a = e.name ∧
          csrType a = e.type) := by
  intro a _
  constructor
  · intro h
    simp [csrReadOnly, csrName, csrType, h]
  · intro e h
    simp [csrReadOnly, csrName, csrType, h]

theorem claim_C9_witness :
    (csrReadOnly 5 = true ∧ csrName 5 = "UNKNOWN" ∧
      csrType 5 = CsrType.NONE) ∧
    (csrReadOnly 1 = false ∧ csrName 1 = "fflags" ∧
      csrType 1 = CsrType.FP) := by
  constructor
  · exact (claim_C9_csr_accessor_defaults 5 (by decide)).1 (by rfl)
  · exact (claim_C9_csr_accessor_defaults 1 (by decide)).2
      ⟨1, "fflags", false, CsrType.FP⟩ (by rfl)

/-- Claim C10 (confirmed): a zero-length Cv32e40::write returns zero
immediately and issues no Dmi::writeMem call, for every address and
buffer. -/
theorem claim_C10_zero_length_write :
    ∀ (addr : Nat) (buffer : List Nat),
      cv32e40Write addr buffer 0 = (0, []) :=
  fun _addr _buffer => rfl

end CoreV
